import Mathlib

/-!
Verification of the rteval report-registration pipeline (server/parser/pgsql.h).

The repository ships the interface header `src/server/parser/pgsql.h`: the
seven STAT_* status constants and the declarations of the database layer
(db_begin / db_commit / db_rollback / db_register_system /
db_register_rtevalrun / db_register_cyclictest).  The status constants are
translated directly from that header.  The bodies of the database functions
and of the report-processing driver are not part of the sources, so their
behaviour is modelled from the specification (sections 4.1-4.4, 7): an
explicit database state, a session with at most one open transaction, a
pure document extractor, and an orchestrator that registers system, run and
cyclictest data inside one transaction, with an explicit fault model for
database errors and an event trace recording the transaction primitives.
-/

namespace RTEval

/-! ### Status constants, translated from src/server/parser/pgsql.h lines 28-34 -/

/-- `#define STAT_NEW 0`: new, unparsed report in the submission queue. -/
def STAT_NEW : Nat := 0

/-- `#define STAT_SUCCESS 1`: report parsed successfully. -/
def STAT_SUCCESS : Nat := 1

/-- `#define STAT_XMLFAIL 2`: failed to parse the report XML file. -/
def STAT_XMLFAIL : Nat := 2

/-- `#define STAT_SYSREG 3`: system registration failed. -/
def STAT_SYSREG : Nat := 3

/-- `#define STAT_GENDB 4`: general database error. -/
def STAT_GENDB : Nat := 4

/-- `#define STAT_RTEVRUNS 5`: registering rteval run information failed. -/
def STAT_RTEVRUNS : Nat := 5

/-- `#define STAT_CYCLIC 6`: registering cyclictest results failed. -/
def STAT_CYCLIC : Nat := 6

/-- The seven status codes of pgsql.h, in the order they are defined. -/
def statusCodes : List Nat :=
  [STAT_NEW, STAT_SUCCESS, STAT_XMLFAIL, STAT_SYSREG, STAT_GENDB,
   STAT_RTEVRUNS, STAT_CYCLIC]

/-! ### Document extractor (spec section 4.2) -/

/-- Modelled from the spec: the report document (`xmlDoc *summaryxml` in the
header; its parsing code is not in the sources).  A normalized tree of
key/value data with one section per target entity: system bindings, run
bindings, and one binding list per cyclictest record. -/
structure Document where
  systemData : List (String × String)
  runData : List (String × String)
  cyclicData : List (List (String × String))
deriving DecidableEq

/-- Modelled from the spec: one entry of an extraction template, a mapping
from a document path to a named field, with a default for optional fields. -/
structure TemplateField where
  path : String
  name : String
  required : Bool
  dflt : String
deriving DecidableEq

/-- Modelled from the spec: the extraction template (`xsltStylesheet *xslt`
in the header; the stylesheet itself is not in the sources), one field list
per target entity. -/
structure Template where
  systemFields : List TemplateField
  runFields : List TemplateField
  cyclicFields : List TemplateField
deriving DecidableEq

/-- Modelled from the spec: extraction failure naming the missing path. -/
inductive ExtractionError where
  | missingRequired (path : String)
deriving DecidableEq

/-- A named field set produced by extraction: field name paired with value. -/
abbrev FieldSet := List (String × String)

/-- Look a document path up in one binding section. -/
def lookupPath (bindings : List (String × String)) (p : String) : Option String :=
  (bindings.find? (fun b => b.1 == p)).map Prod.snd

/-- Modelled from the spec: apply one template field list to one binding
section.  Missing optional fields map to the declared default; a missing
required field produces `ExtractionError` naming the missing path. -/
def extractFields (specs : List TemplateField) (bindings : List (String × String)) :
    Except ExtractionError FieldSet :=
  match specs with
  | [] => .ok []
  | sp :: rest =>
    match lookupPath bindings sp.path with
    | some v => (extractFields rest bindings).map (fun fs => (sp.name, v) :: fs)
    | none =>
      if sp.required then .error (.missingRequired sp.path)
      else (extractFields rest bindings).map (fun fs => (sp.name, sp.dflt) :: fs)

/-- Extract the system field set from a document. -/
def extractSystem (d : Document) (t : Template) : Except ExtractionError FieldSet :=
  extractFields t.systemFields d.systemData

/-- Extract the run field set from a document. -/
def extractRun (d : Document) (t : Template) : Except ExtractionError FieldSet :=
  extractFields t.runFields d.runData

/-- Apply the cyclictest field list to every cyclictest record in turn,
stopping at the first extraction error. -/
def extractRows (specs : List TemplateField) :
    List (List (String × String)) → Except ExtractionError (List FieldSet)
  | [] => .ok []
  | b :: bs =>
    match extractFields specs b with
    | .error e => .error e
    | .ok fs =>
      match extractRows specs bs with
      | .error e => .error e
      | .ok rest => .ok (fs :: rest)

/-- Extract the cyclictest result set: one field set per cyclictest record. -/
def extractCyclic (d : Document) (t : Template) : Except ExtractionError (List FieldSet) :=
  extractRows t.cyclicFields d.cyclicData

/-- The entity kinds of the extraction interface. -/
inductive EntityKind where
  | system
  | run
  | cyclictest
deriving DecidableEq

/-- Result of the generic extraction interface, tagged by entity kind. -/
inductive ExtractOut where
  | sys (fs : FieldSet)
  | run (fs : FieldSet)
  | cyc (rows : List FieldSet)
deriving DecidableEq

/-- Modelled from the spec: the pure extraction interface
`extract(document, template, entity_kind) -> FieldSet | ExtractionError`. -/
def extract (d : Document) (t : Template) (k : EntityKind) :
    Except ExtractionError ExtractOut :=
  match k with
  | .system => (extractSystem d t).map .sys
  | .run => (extractRun d t).map .run
  | .cyclictest => (extractCyclic d t).map .cyc

/-! ### Database state and session (spec sections 3, 4.1, 6) -/

/-- A row of the systems table: generated key plus the extracted fields. -/
structure SystemRow where
  syskey : Nat
  fields : FieldSet
deriving DecidableEq

/-- A row of the runs table: generated key, foreign key to systems, the
report file name, and the extracted fields. -/
structure RunRow where
  rterid : Nat
  syskey : Nat
  report_fname : String
  fields : FieldSet
deriving DecidableEq

/-- A row of the cyclictest_results table: foreign key to runs plus the
extracted fields. -/
structure CyclicRow where
  rterid : Nat
  fields : FieldSet
deriving DecidableEq

/-- Modelled from the spec: the stored data of the three related tables
(systems, runs, cyclictest_results) with the generator counters for the two
generated primary keys. -/
structure DBState where
  systems : List SystemRow
  runs : List RunRow
  cyclictests : List CyclicRow
  nextSyskey : Nat
  nextRterid : Nat
deriving DecidableEq

/-- Modelled from the spec: one database session (`dbconn` in the header;
the connection code is not in the sources).  `db` is the committed, durable
state; `txn` is the working state of the open transaction if one is active
(at most one, nesting unsupported). -/
structure Session where
  db : DBState
  txn : Option DBState
deriving DecidableEq

/-- Modelled from the spec: `db_begin` opens a transaction whose working
state starts from the committed state. -/
def db_begin (s : Session) : Session :=
  { db := s.db, txn := some s.db }

/-- Modelled from the spec: `db_commit` makes the working state durable and
closes the transaction; with no open transaction it is a no-op. -/
def db_commit (s : Session) : Session :=
  match s.txn with
  | some w => { db := w, txn := none }
  | none => s

/-- Modelled from the spec: `db_rollback` discards the working state and
closes the transaction; with no open transaction it is a no-op, so it is
safe to call defensively. -/
def db_rollback (s : Session) : Session :=
  { db := s.db, txn := none }

/-- Modelled from the spec: the database-error environment of one attempt.
The implementation bodies are not in the sources, so the points where the
database can fail are made explicit: the BEGIN statement, the system
insert, the run insert, the insert of cyclictest row number `i`
(`cyclicFailAt = some i`), and the COMMIT statement. -/
structure Fault where
  beginFails : Bool
  sysInsertFails : Bool
  runInsertFails : Bool
  cyclicFailAt : Option Nat
  commitFails : Bool
deriving DecidableEq

/-- The fault-free environment: every database operation succeeds. -/
def noFault : Fault :=
  { beginFails := false, sysInsertFails := false, runInsertFails := false,
    cyclicFailAt := none, commitFails := false }

/-! ### Registration steps (spec section 4.3, header lines 43-46) -/

/-- Modelled from the spec: `db_register_system(dbc, xslt, summaryxml)`
(body not in the sources).  Extracts the system fields and performs
lookup-or-insert: an existing row with the same fields is reused, otherwise
a row with the next generated system key is inserted.  Returns `none` on
extraction failure or database error. -/
def db_register_system (f : Fault) (t : Template) (d : Document) (st : DBState) :
    Option (Nat × DBState) :=
  match extractSystem d t with
  | .error _ => none
  | .ok sfs =>
    if f.sysInsertFails then none
    else
      match st.systems.find? (fun row => decide (row.fields = sfs)) with
      | some row => some (row.syskey, st)
      | none =>
        some (st.nextSyskey,
          { systems := st.systems ++ [⟨st.nextSyskey, sfs⟩],
            runs := st.runs, cyclictests := st.cyclictests,
            nextSyskey := st.nextSyskey + 1, nextRterid := st.nextRterid })

/-- Modelled from the spec: `db_register_rtevalrun(dbc, xslt, summaryxml,
syskey, report_fname)` (body not in the sources).  Extracts the run fields
and inserts one run row referencing `syskey`, returning the generated run
key.  Returns `none` on extraction failure or database error. -/
def db_register_rtevalrun (f : Fault) (t : Template) (d : Document)
    (syskey : Nat) (report_fname : String) (st : DBState) :
    Option (Nat × DBState) :=
  match extractRun d t with
  | .error _ => none
  | .ok rfs =>
    if f.runInsertFails then none
    else
      some (st.nextRterid,
        { systems := st.systems,
          runs := st.runs ++ [⟨st.nextRterid, syskey, report_fname, rfs⟩],
          cyclictests := st.cyclictests,
          nextSyskey := st.nextSyskey, nextRterid := st.nextRterid + 1 })

/-- Insert the extracted cyclictest rows one by one, each referencing
`rterid`; row number `i` fails when the fault environment says so, leaving
the rows before it inserted in the working state (the caller rolls back). -/
def insertCyclicRows (failAt : Option Nat) (rterid : Nat) (i : Nat) :
    List FieldSet → DBState → Nat × DBState
  | [], st => (STAT_SUCCESS, st)
  | fs :: rest, st =>
    if failAt = some i then (STAT_CYCLIC, st)
    else
      insertCyclicRows failAt rterid (i + 1) rest
        { systems := st.systems, runs := st.runs,
          cyclictests := st.cyclictests ++ [⟨rterid, fs⟩],
          nextSyskey := st.nextSyskey, nextRterid := st.nextRterid }

/-- Modelled from the spec: `db_register_cyclictest(dbc, xslt, summaryxml,
rterid)` (body not in the sources).  Extracts the one-or-more cyclictest
result rows and inserts all of them referencing `rterid`; the returned code
is `STAT_SUCCESS` only when every row was inserted, `STAT_CYCLIC` on
extraction failure or on a database error part way through. -/
def db_register_cyclictest (f : Fault) (t : Template) (d : Document)
    (rterid : Nat) (st : DBState) : Nat × DBState :=
  match extractCyclic d t with
  | .error _ => (STAT_CYCLIC, st)
  | .ok rows => insertCyclicRows f.cyclicFailAt rterid 0 rows st

/-! ### Status classifier and orchestrator (spec sections 4.3, 4.4, 7) -/

/-- Modelled from the spec: the internal error kinds of the taxonomy that a
failed attempt can produce. -/
inductive ErrKind where
  | xmlParse
  | sysReg
  | genDB
  | runReg
  | cyclicReg
deriving DecidableEq

/-- Modelled from the spec: the status classifier, a pure fixed mapping
from internal error kinds to the public status codes; it is an ordinary
function of its argument, so it has no hidden state. -/
def classify : ErrKind → Nat
  | .xmlParse => STAT_XMLFAIL
  | .sysReg => STAT_SYSREG
  | .genDB => STAT_GENDB
  | .runReg => STAT_RTEVRUNS
  | .cyclicReg => STAT_CYCLIC

/-- The observable transaction and registration events of one attempt, in
the order they happened. -/
inductive Event where
  | evBegin
  | evRegisterSystem
  | evRegisterRun
  | evRegisterCyclic
  | evCommit
  | evRollback
deriving DecidableEq

/-- Result of one report-processing attempt: the status code, the generated
system key when at least the system step succeeded, the session afterwards,
and the event trace. -/
structure ProcessResult where
  status : Nat
  syskey : Option Nat
  session : Session
  trace : List Event
deriving DecidableEq

/-- Modelled from the spec: `process_report(session, document)`, the
top-level driver (body not in the sources).  If the document cannot be
extracted at the system-extraction step it returns `STAT_XMLFAIL` without
touching the transaction.  Otherwise it begins a transaction, registers the
system, the run and the cyclictest results in that order, commits on full
success, and on the first failure rolls back once and returns that step's
status code. -/
def process_report (f : Fault) (t : Template) (d : Document)
    (report_fname : String) (s : Session) : ProcessResult :=
  match extractSystem d t with
  | .error _ => ⟨classify .xmlParse, none, s, []⟩
  | .ok _ =>
    if f.beginFails then ⟨classify .genDB, none, s, []⟩
    else
      let s1 := db_begin s
      let w0 := s1.txn.getD s1.db
      match db_register_system f t d w0 with
      | none =>
        ⟨classify .sysReg, none, db_rollback s1, [.evBegin, .evRollback]⟩
      | some (syskey, w1) =>
        match db_register_rtevalrun f t d syskey report_fname w1 with
        | none =>
          ⟨classify .runReg, some syskey, db_rollback ⟨s1.db, some w1⟩,
           [.evBegin, .evRegisterSystem, .evRollback]⟩
        | some (rterid, w2) =>
          let cr := db_register_cyclictest f t d rterid w2
          if cr.1 = STAT_SUCCESS then
            if f.commitFails then
              ⟨classify .genDB, some syskey, db_rollback ⟨s1.db, some cr.2⟩,
               [.evBegin, .evRegisterSystem, .evRegisterRun, .evRegisterCyclic,
                .evRollback]⟩
            else
              ⟨STAT_SUCCESS, some syskey, db_commit ⟨s1.db, some cr.2⟩,
               [.evBegin, .evRegisterSystem, .evRegisterRun, .evRegisterCyclic,
                .evCommit]⟩
          else
            ⟨classify .cyclicReg, some syskey, db_rollback ⟨s1.db, some cr.2⟩,
             [.evBegin, .evRegisterSystem, .evRegisterRun, .evRegisterCyclic,
              .evRollback]⟩

/-! ### Concrete sample inputs used by the witnesses -/

instance {ε α : Type} [DecidableEq ε] [DecidableEq α] : DecidableEq (Except ε α) := fun a b =>
  match a, b with
  | .error e, .error e' =>
    if h : e = e' then .isTrue (by rw [h])
    else .isFalse (fun hc => h (by injection hc))
  | .error _, .ok _ => .isFalse (fun hc => Except.noConfusion hc)
  | .ok _, .error _ => .isFalse (fun hc => Except.noConfusion hc)
  | .ok a, .ok b =>
    if h : a = b then .isTrue (by rw [h])
    else .isFalse (fun hc => h (by injection hc))

/-- A small extraction template: the hostname is required, the architecture
is optional with default, one required run field and one required
cyclictest field. -/
def sampleTemplate : Template :=
  { systemFields := [⟨"h", "hostname", true, ""⟩, ⟨"a", "arch", false, "x86"⟩],
    runFields := [⟨"s", "start", true, ""⟩],
    cyclicFields := [⟨"c", "core", true, ""⟩] }

/-- A well-formed document with one system, one run and three cyclictest
result rows. -/
def sampleDoc : Document :=
  { systemData := [("h", "box1"), ("a", "arm")],
    runData := [("s", "t0")],
    cyclicData := [[("c", "0")], [("c", "1")], [("c", "2")]] }

/-- A document whose system section is missing the required hostname path,
so system extraction fails. -/
def docMissingSystemField : Document :=
  { systemData := [("a", "arm")], runData := [("s", "t0")], cyclicData := [] }

/-- A document whose run section is missing the required start path, so run
extraction fails after system extraction succeeded. -/
def docMissingRunField : Document :=
  { systemData := [("h", "box1")], runData := [], cyclicData := [[("c", "0")]] }

/-- The empty database: no rows, key generators at 1. -/
def emptyDB : DBState := ⟨[], [], [], 1, 1⟩

/-- A fresh session on the empty database with no open transaction. -/
def freshSession : Session := ⟨emptyDB, none⟩

/-! ### Step lemmas about the registration operations -/

/-- A successful `db_register_system` call leaves runs and cyclictest rows
unchanged and either reuses the key of an existing system row or appends
exactly one new system row holding the extracted fields. -/
theorem db_register_system_eq_some (f : Fault) (t : Template) (d : Document)
    (st : DBState) (k : Nat) (st' : DBState)
    (h : db_register_system f t d st = some (k, st')) :
    st'.runs = st.runs ∧ st'.cyclictests = st.cyclictests ∧
    st'.nextRterid = st.nextRterid ∧
    ((st'.systems = st.systems ∧ ∃ row ∈ st.systems, row.syskey = k) ∨
      ∃ sfs, extractSystem d t = .ok sfs ∧
        st'.systems = st.systems ++ [⟨k, sfs⟩]) := by
  unfold db_register_system at h
  cases he : extractSystem d t with
  | error e => rw [he] at h; exact absurd h (by simp)
  | ok sfs =>
    rw [he] at h
    cases hb : f.sysInsertFails with
    | true => rw [hb] at h; simp at h
    | false =>
      rw [hb] at h
      simp only [Bool.false_eq_true, if_false] at h
      cases hf : st.systems.find? (fun row => decide (row.fields = sfs)) with
      | some row =>
        rw [hf] at h
        injection h with h'
        injection h' with h1 h2
        subst h2
        refine ⟨rfl, rfl, rfl, Or.inl ⟨rfl, row, List.mem_of_find?_eq_some hf, h1⟩⟩
      | none =>
        rw [hf] at h
        injection h with h'
        injection h' with h1 h2
        subst h2
        subst h1
        exact ⟨rfl, rfl, rfl, Or.inr ⟨sfs, rfl, rfl⟩⟩

/-- Without a system-insert fault, `db_register_system` succeeds whenever
system extraction succeeds. -/
theorem db_register_system_total (f : Fault) (t : Template) (d : Document)
    (st : DBState) (sfs : FieldSet) (hsf : f.sysInsertFails = false)
    (he : extractSystem d t = .ok sfs) :
    ∃ k st', db_register_system f t d st = some (k, st') := by
  unfold db_register_system
  rw [he, hsf]
  simp only [Bool.false_eq_true, if_false]
  cases hf : st.systems.find? (fun row => decide (row.fields = sfs)) with
  | some row => exact ⟨row.syskey, st, rfl⟩
  | none => exact ⟨st.nextSyskey, _, rfl⟩

/-- A successful `db_register_rtevalrun` call leaves systems and cyclictest
rows unchanged and appends exactly one run row referencing the given system
key. -/
theorem db_register_rtevalrun_eq_some (f : Fault) (t : Template) (d : Document)
    (syskey : Nat) (fn : String) (st : DBState) (rid : Nat) (st' : DBState)
    (h : db_register_rtevalrun f t d syskey fn st = some (rid, st')) :
    st'.systems = st.systems ∧ st'.cyclictests = st.cyclictests ∧
    ∃ rfs, extractRun d t = .ok rfs ∧
      st'.runs = st.runs ++ [⟨rid, syskey, fn, rfs⟩] := by
  unfold db_register_rtevalrun at h
  cases he : extractRun d t with
  | error e => rw [he] at h; exact absurd h (by simp)
  | ok rfs =>
    rw [he] at h
    cases hb : f.runInsertFails with
    | true => rw [hb] at h; simp at h
    | false =>
      rw [hb] at h
      simp only [Bool.false_eq_true, if_false] at h
      injection h with h'
      injection h' with h1 h2
      subst h2
      subst h1
      exact ⟨rfl, rfl, rfs, rfl, rfl⟩

/-- When run extraction fails, `db_register_rtevalrun` fails. -/
theorem db_register_rtevalrun_none_of_extract (f : Fault) (t : Template)
    (d : Document) (syskey : Nat) (fn : String) (st : DBState)
    (e : ExtractionError) (he : extractRun d t = .error e) :
    db_register_rtevalrun f t d syskey fn st = none := by
  unfold db_register_rtevalrun
  rw [he]

/-- `insertCyclicRows` only ever answers success or the cyclictest failure
code. -/
theorem insertCyclicRows_fst (fa : Option Nat) (rid : Nat) :
    ∀ (rows : List FieldSet) (i : Nat) (st : DBState),
      (insertCyclicRows fa rid i rows st).1 = STAT_SUCCESS ∨
      (insertCyclicRows fa rid i rows st).1 = STAT_CYCLIC := by
  intro rows
  induction rows with
  | nil => intro i st; exact Or.inl rfl
  | cons fs rest ih =>
    intro i st
    unfold insertCyclicRows
    by_cases h : fa = some i
    · rw [if_pos h]; exact Or.inr rfl
    · rw [if_neg h]; exact ih (i + 1) _

/-- `insertCyclicRows` never touches the systems or runs tables or the key
generators, whether it succeeds or fails part way. -/
theorem insertCyclicRows_preserve (fa : Option Nat) (rid : Nat) :
    ∀ (rows : List FieldSet) (i : Nat) (st : DBState),
      (insertCyclicRows fa rid i rows st).2.systems = st.systems ∧
      (insertCyclicRows fa rid i rows st).2.runs = st.runs := by
  intro rows
  induction rows with
  | nil => intro i st; exact ⟨rfl, rfl⟩
  | cons fs rest ih =>
    intro i st
    unfold insertCyclicRows
    by_cases h : fa = some i
    · rw [if_pos h]; exact ⟨rfl, rfl⟩
    · rw [if_neg h]; exact ih (i + 1) _

/-- When `insertCyclicRows` answers success, it has appended exactly one
cyclictest row per input row, each referencing the given run key. -/
theorem insertCyclicRows_success (fa : Option Nat) (rid : Nat) :
    ∀ (rows : List FieldSet) (i : Nat) (st : DBState),
      (insertCyclicRows fa rid i rows st).1 = STAT_SUCCESS →
      (insertCyclicRows fa rid i rows st).2.cyclictests =
        st.cyclictests ++ rows.map (fun fs => ⟨rid, fs⟩) := by
  intro rows
  induction rows with
  | nil => intro i st _; simp [insertCyclicRows]
  | cons fs rest ih =>
    intro i st hsucc
    unfold insertCyclicRows at hsucc ⊢
    by_cases h : fa = some i
    · rw [if_pos h] at hsucc
      exact absurd hsucc (by simp [STAT_CYCLIC, STAT_SUCCESS])
    · rw [if_neg h] at hsucc ⊢
      rw [ih (i + 1) _ hsucc]
      simp

/-- `db_register_cyclictest` only ever answers success or the cyclictest
failure code. -/
theorem db_register_cyclictest_fst (f : Fault) (t : Template) (d : Document)
    (rid : Nat) (st : DBState) :
    (db_register_cyclictest f t d rid st).1 = STAT_SUCCESS ∨
    (db_register_cyclictest f t d rid st).1 = STAT_CYCLIC := by
  unfold db_register_cyclictest
  cases he : extractCyclic d t with
  | error e => exact Or.inr rfl
  | ok rows => exact insertCyclicRows_fst f.cyclicFailAt rid rows 0 st

/-- `db_register_cyclictest` never touches the systems or runs tables,
whether it succeeds or fails part way. -/
theorem db_register_cyclictest_preserve (f : Fault) (t : Template)
    (d : Document) (rid : Nat) (st : DBState) :
    (db_register_cyclictest f t d rid st).2.systems = st.systems ∧
    (db_register_cyclictest f t d rid st).2.runs = st.runs := by
  unfold db_register_cyclictest
  cases he : extractCyclic d t with
  | error e => exact ⟨rfl, rfl⟩
  | ok rows => exact insertCyclicRows_preserve f.cyclicFailAt rid rows 0 st

/-- When `db_register_cyclictest` answers success, the whole extracted
result set was inserted: one cyclictest row per extracted row, each
referencing the given run key. -/
theorem db_register_cyclictest_success (f : Fault) (t : Template)
    (d : Document) (rid : Nat) (st : DBState)
    (h : (db_register_cyclictest f t d rid st).1 = STAT_SUCCESS) :
    ∃ rows, extractCyclic d t = .ok rows ∧
      (db_register_cyclictest f t d rid st).2.cyclictests =
        st.cyclictests ++ rows.map (fun fs => ⟨rid, fs⟩) := by
  unfold db_register_cyclictest at h ⊢
  cases he : extractCyclic d t with
  | error e =>
    rw [he] at h
    exact absurd h (by simp [STAT_CYCLIC, STAT_SUCCESS])
  | ok rows =>
    rw [he] at h
    exact ⟨rows, rfl, insertCyclicRows_success f.cyclicFailAt rid rows 0 st h⟩

/-- Full case analysis of one report-processing attempt: the seven possible
outcomes, each with the step results that led there and the exact result
record. -/
theorem process_report_cases (f : Fault) (t : Template) (d : Document)
    (fn : String) (s : Session) :
    (∃ e, extractSystem d t = .error e ∧
      process_report f t d fn s = ⟨STAT_XMLFAIL, none, s, []⟩) ∨
    ((∃ sfs, extractSystem d t = .ok sfs) ∧ f.beginFails = true ∧
      process_report f t d fn s = ⟨STAT_GENDB, none, s, []⟩) ∨
    ((∃ sfs, extractSystem d t = .ok sfs) ∧ f.beginFails = false ∧
      db_register_system f t d s.db = none ∧
      process_report f t d fn s =
        ⟨STAT_SYSREG, none, ⟨s.db, none⟩, [.evBegin, .evRollback]⟩) ∨
    (∃ k w1, f.beginFails = false ∧
      db_register_system f t d s.db = some (k, w1) ∧
      db_register_rtevalrun f t d k fn w1 = none ∧
      process_report f t d fn s =
        ⟨STAT_RTEVRUNS, some k, ⟨s.db, none⟩,
         [.evBegin, .evRegisterSystem, .evRollback]⟩) ∨
    (∃ k w1 rid w2, f.beginFails = false ∧
      db_register_system f t d s.db = some (k, w1) ∧
      db_register_rtevalrun f t d k fn w1 = some (rid, w2) ∧
      (db_register_cyclictest f t d rid w2).1 = STAT_CYCLIC ∧
      process_report f t d fn s =
        ⟨STAT_CYCLIC, some k, ⟨s.db, none⟩,
         [.evBegin, .evRegisterSystem, .evRegisterRun, .evRegisterCyclic,
          .evRollback]⟩) ∨
    (∃ k w1 rid w2, f.beginFails = false ∧
      db_register_system f t d s.db = some (k, w1) ∧
      db_register_rtevalrun f t d k fn w1 = some (rid, w2) ∧
      (db_register_cyclictest f t d rid w2).1 = STAT_SUCCESS ∧
      f.commitFails = true ∧
      process_report f t d fn s =
        ⟨STAT_GENDB, some k, ⟨s.db, none⟩,
         [.evBegin, .evRegisterSystem, .evRegisterRun, .evRegisterCyclic,
          .evRollback]⟩) ∨
    (∃ k w1 rid w2, f.beginFails = false ∧
      db_register_system f t d s.db = some (k, w1) ∧
      db_register_rtevalrun f t d k fn w1 = some (rid, w2) ∧
      (db_register_cyclictest f t d rid w2).1 = STAT_SUCCESS ∧
      f.commitFails = false ∧
      process_report f t d fn s =
        ⟨STAT_SUCCESS, some k, ⟨(db_register_cyclictest f t d rid w2).2, none⟩,
         [.evBegin, .evRegisterSystem, .evRegisterRun, .evRegisterCyclic,
          .evCommit]⟩) := by
  cases he : extractSystem d t with
  | error e =>
    refine Or.inl ⟨e, rfl, ?_⟩
    simp [process_report, he, classify]
  | ok sfs =>
    cases hb : f.beginFails with
    | true =>
      refine Or.inr (Or.inl ⟨⟨sfs, rfl⟩, rfl, ?_⟩)
      simp [process_report, he, hb, classify]
    | false =>
      cases hs : db_register_system f t d s.db with
      | none =>
        refine Or.inr (Or.inr (Or.inl ⟨⟨sfs, rfl⟩, rfl, rfl, ?_⟩))
        simp [process_report, he, hb, db_begin, db_rollback, hs, classify]
      | some kw =>
        obtain ⟨k, w1⟩ := kw
        cases hr : db_register_rtevalrun f t d k fn w1 with
        | none =>
          refine Or.inr (Or.inr (Or.inr (Or.inl ⟨k, w1, rfl, rfl, hr, ?_⟩)))
          simp [process_report, he, hb, db_begin, db_rollback, hs, hr, classify]
        | some rw2 =>
          obtain ⟨rid, w2⟩ := rw2
          rcases db_register_cyclictest_fst f t d rid w2 with hc | hc
          · cases hcf : f.commitFails with
            | true =>
              refine Or.inr (Or.inr (Or.inr (Or.inr (Or.inr (Or.inl
                ⟨k, w1, rid, w2, rfl, rfl, hr, hc, rfl, ?_⟩)))))
              simp [process_report, he, hb, db_begin, db_rollback, hs, hr,
                hc, hcf, classify]
            | false =>
              refine Or.inr (Or.inr (Or.inr (Or.inr (Or.inr (Or.inr
                ⟨k, w1, rid, w2, rfl, rfl, hr, hc, rfl, ?_⟩)))))
              simp [process_report, he, hb, db_begin, db_commit, hs, hr,
                hc, hcf, classify]
          · refine Or.inr (Or.inr (Or.inr (Or.inr (Or.inl
              ⟨k, w1, rid, w2, rfl, rfl, hr, hc, ?_⟩))))
            simp [process_report, he, hb, db_begin, db_rollback, hs, hr,
              hc, STAT_CYCLIC, STAT_SUCCESS, classify]

/-- A fault environment where only the run insert fails. -/
def faultRunInsert : Fault := { noFault with runInsertFails := true }

/-! ### The claims -/

/-- C7: rollback is idempotent and safe to call defensively: for every
session state, rollback after rollback and rollback after commit are
no-ops that leave the session and the committed data unchanged, and
rollback itself never changes the committed data. -/
theorem claim_C7_rollback_idempotent (s : Session) :
    db_rollback (db_rollback s) = db_rollback s ∧
    db_rollback (db_commit s) = db_commit s ∧
    (db_rollback (db_rollback s)).db = (db_rollback s).db ∧
    (db_rollback (db_commit s)).db = (db_commit s).db ∧
    (db_rollback s).db = s.db := by
  obtain ⟨db, txn⟩ := s
  cases txn <;> simp [db_rollback, db_commit]

/-- C9: document extraction is a pure function: it is deterministic in
(document, template, entity_kind); as a plain function of its arguments it
performs no I/O and cannot mutate them. -/
theorem claim_C9_extract_deterministic (d : Document) (t : Template)
    (k : EntityKind) (r₁ r₂ : Except ExtractionError ExtractOut)
    (h₁ : extract d t k = r₁) (h₂ : extract d t k = r₂) : r₁ = r₂ := by
  rw [← h₁, ← h₂]

/-- Witness for C9 at a concrete document, template and entity kind. -/
theorem claim_C9_witness :
    extract sampleDoc sampleTemplate EntityKind.system =
      Except.ok (ExtractOut.sys [("hostname", "box1"), ("arch", "arm")]) :=
  claim_C9_extract_deterministic sampleDoc sampleTemplate EntityKind.system
    _ _ rfl (by decide)

/-- C2: every report-processing attempt returns one of the seven
enumerated status codes, and the status classifier is a total,
deterministic mapping of internal error kinds into that same enumeration
(a plain function, so it has no hidden state). -/
theorem claim_C2_status_enumeration :
    (∀ f t d fn s, (process_report f t d fn s).status ∈ statusCodes) ∧
    (∀ e, classify e ∈ statusCodes) ∧
    (∀ e r₁ r₂, classify e = r₁ → classify e = r₂ → r₁ = r₂) := by
  refine ⟨?_, ?_, ?_⟩
  · intro f t d fn s
    rcases process_report_cases f t d fn s with
      ⟨e, _, hres⟩ | ⟨_, _, hres⟩ | ⟨_, _, _, hres⟩ | ⟨k, w1, _, _, _, hres⟩ |
      ⟨k, w1, rid, w2, _, _, _, _, hres⟩ |
      ⟨k, w1, rid, w2, _, _, _, _, _, hres⟩ |
      ⟨k, w1, rid, w2, _, _, _, _, _, hres⟩ <;>
      simp [hres, statusCodes, STAT_NEW, STAT_SUCCESS, STAT_XMLFAIL,
        STAT_SYSREG, STAT_GENDB, STAT_RTEVRUNS, STAT_CYCLIC]
  · intro e
    cases e <;> decide
  · intro e r₁ r₂ h₁ h₂
    rw [← h₁, ← h₂]

/-- Witness for C2: the classifier at a concrete error kind, through the
determinism clause of the theorem. -/
theorem claim_C2_witness : classify ErrKind.xmlParse = STAT_XMLFAIL :=
  claim_C2_status_enumeration.2.2 ErrKind.xmlParse _ _ rfl (by decide)

/-- C10: the seven status constants take the pairwise distinct values
0 through 6 in definition order, with NEW = 0 and SUCCESS = 1, every
failure code lies in 2..6, and a completed attempt never returns NEW. -/
theorem claim_C10_status_values :
    (∀ f t d fn s, (process_report f t d fn s).status ≠ STAT_NEW ∧
      (process_report f t d fn s).status ∈ statusCodes) ∧
    statusCodes = [0, 1, 2, 3, 4, 5, 6] ∧
    statusCodes.Nodup ∧
    STAT_NEW = 0 ∧ STAT_SUCCESS = 1 ∧
    (∀ c, c ∈ [STAT_XMLFAIL, STAT_SYSREG, STAT_GENDB, STAT_RTEVRUNS,
      STAT_CYCLIC] → 2 ≤ c ∧ c ≤ 6) := by
  refine ⟨?_, by decide, by decide, rfl, rfl, by decide⟩
  intro f t d fn s
  rcases process_report_cases f t d fn s with
    ⟨e, _, hres⟩ | ⟨_, _, hres⟩ | ⟨_, _, _, hres⟩ | ⟨k, w1, _, _, _, hres⟩ |
    ⟨k, w1, rid, w2, _, _, _, _, hres⟩ |
    ⟨k, w1, rid, w2, _, _, _, _, _, hres⟩ |
    ⟨k, w1, rid, w2, _, _, _, _, _, hres⟩ <;>
    simp [hres, statusCodes, STAT_NEW, STAT_SUCCESS, STAT_XMLFAIL,
      STAT_SYSREG, STAT_GENDB, STAT_RTEVRUNS, STAT_CYCLIC]

/-- Witness for C10 at a concrete attempt: the returned status is not NEW. -/
theorem claim_C10_witness :
    (process_report noFault sampleTemplate sampleDoc "report.xml"
      freshSession).status ≠ STAT_NEW := by
  have h := claim_C10_status_values
  exact (h.1 noFault sampleTemplate sampleDoc "report.xml" freshSession).1

/-- C5: when the document cannot be extracted at the system-extraction
step, the attempt returns STAT_XMLFAIL with the session untouched and an
empty event trace (so no begin, commit or rollback was issued), and
STAT_XMLFAIL is distinct from every database-error status code. -/
theorem claim_C5_xmlfail_no_transaction (f : Fault) (t : Template)
    (d : Document) (fn : String) (s : Session) (e : ExtractionError)
    (he : extractSystem d t = .error e) :
    process_report f t d fn s = ⟨STAT_XMLFAIL, none, s, []⟩ ∧
    (process_report f t d fn s).trace = [] ∧
    STAT_XMLFAIL ≠ STAT_SYSREG ∧ STAT_XMLFAIL ≠ STAT_GENDB ∧
    STAT_XMLFAIL ≠ STAT_RTEVRUNS ∧ STAT_XMLFAIL ≠ STAT_CYCLIC := by
  have h : process_report f t d fn s = ⟨STAT_XMLFAIL, none, s, []⟩ := by
    simp [process_report, he, classify]
  exact ⟨h, by rw [h], by decide, by decide, by decide, by decide⟩

/-- Witness for C5 at a concrete document whose required hostname path is
missing. -/
theorem claim_C5_witness :
    process_report noFault sampleTemplate docMissingSystemField "r.xml"
        freshSession =
      ⟨STAT_XMLFAIL, none, freshSession, []⟩ ∧
    (process_report noFault sampleTemplate docMissingSystemField "r.xml"
      freshSession).trace = [] ∧
    STAT_XMLFAIL ≠ STAT_SYSREG ∧ STAT_XMLFAIL ≠ STAT_GENDB ∧
    STAT_XMLFAIL ≠ STAT_RTEVRUNS ∧ STAT_XMLFAIL ≠ STAT_CYCLIC :=
  claim_C5_xmlfail_no_transaction noFault sampleTemplate docMissingSystemField
    "r.xml" freshSession (.missingRequired "h") (by decide)

/-- C4: cyclictest registration is all-or-nothing: the call answers either
STAT_SUCCESS or STAT_CYCLIC, and on STAT_SUCCESS the stored cyclictest rows
are exactly the old ones plus one row per extracted input row, each
referencing the given run key — a partial insertion is never reported as
success. -/
theorem claim_C4_cyclictest_all_or_nothing (f : Fault) (t : Template)
    (d : Document) (rid : Nat) (st : DBState) :
    ((db_register_cyclictest f t d rid st).1 = STAT_SUCCESS ∨
     (db_register_cyclictest f t d rid st).1 = STAT_CYCLIC) ∧
    ((db_register_cyclictest f t d rid st).1 = STAT_SUCCESS →
      ∃ rows, extractCyclic d t = .ok rows ∧
        (db_register_cyclictest f t d rid st).2.cyclictests =
          st.cyclictests ++ rows.map (fun fs => ⟨rid, fs⟩) ∧
        (db_register_cyclictest f t d rid st).2.cyclictests.length =
          st.cyclictests.length + rows.length) := by
  refine ⟨db_register_cyclictest_fst f t d rid st, fun h => ?_⟩
  obtain ⟨rows, hrows, heq⟩ := db_register_cyclictest_success f t d rid st h
  refine ⟨rows, hrows, heq, ?_⟩
  rw [heq]
  simp

/-- Witness for C4 at a concrete document with three cyclictest rows. -/
theorem claim_C4_witness :
    ∃ rows, extractCyclic sampleDoc sampleTemplate = .ok rows ∧
      (db_register_cyclictest noFault sampleTemplate sampleDoc 1
          emptyDB).2.cyclictests =
        emptyDB.cyclictests ++ rows.map (fun fs => ⟨1, fs⟩) ∧
      (db_register_cyclictest noFault sampleTemplate sampleDoc 1
          emptyDB).2.cyclictests.length =
        emptyDB.cyclictests.length + rows.length :=
  (claim_C4_cyclictest_all_or_nothing noFault sampleTemplate sampleDoc 1
    emptyDB).2 (by decide)

/-- C6: for a document whose run fields cannot be extracted, an attempt
with a working database returns STAT_RTEVRUNS (or STAT_XMLFAIL when system
extraction itself fails), and afterwards the visible tables are exactly as
before: no run row, no cyclictest row, and no system row survives, because
the rollback undoes the already-succeeded system insert. -/
theorem claim_C6_missing_run_field (f : Fault) (t : Template) (d : Document)
    (fn : String) (s : Session) (e : ExtractionError)
    (hrun : extractRun d t = .error e)
    (hb : f.beginFails = false) (hsf : f.sysInsertFails = false) :
    ((process_report f t d fn s).status = STAT_RTEVRUNS ∨
     (process_report f t d fn s).status = STAT_XMLFAIL) ∧
    (process_report f t d fn s).session.db = s.db ∧
    (process_report f t d fn s).session.db.systems = s.db.systems ∧
    (process_report f t d fn s).session.db.runs = s.db.runs ∧
    (process_report f t d fn s).session.db.cyclictests = s.db.cyclictests ∧
    ((process_report f t d fn s).status = STAT_RTEVRUNS →
      (process_report f t d fn s).trace.count Event.evRollback = 1) := by
  rcases process_report_cases f t d fn s with
    ⟨e', _, hres⟩ | ⟨_, hbf, _⟩ | ⟨⟨sfs, hsys⟩, _, hnone, _⟩ |
    ⟨k, w1, _, _, _, hres⟩ |
    ⟨k, w1, rid, w2, _, _, hr, _, _⟩ |
    ⟨k, w1, rid, w2, _, _, hr, _, _, _⟩ |
    ⟨k, w1, rid, w2, _, _, hr, _, _, _⟩
  · rw [hres]
    exact ⟨Or.inr rfl, rfl, rfl, rfl, rfl,
      fun h => by simp [STAT_XMLFAIL, STAT_RTEVRUNS] at h⟩
  · rw [hb] at hbf
    exact absurd hbf (by decide)
  · obtain ⟨k, w1, hsome⟩ := db_register_system_total f t d s.db sfs hsf hsys
    rw [hsome] at hnone
    exact absurd hnone (by simp)
  · rw [hres]
    exact ⟨Or.inl rfl, rfl, rfl, rfl, rfl, fun _ => by rfl⟩
  all_goals
    rw [db_register_rtevalrun_none_of_extract f t d k fn w1 e hrun] at hr
    exact absurd hr (by simp)

/-- Witness for C6 at a concrete document whose required run start path is
missing: the attempt ends with STAT_RTEVRUNS and the fresh database is
unchanged. -/
theorem claim_C6_witness :
    ((process_report noFault sampleTemplate docMissingRunField "r.xml"
        freshSession).status = STAT_RTEVRUNS ∨
     (process_report noFault sampleTemplate docMissingRunField "r.xml"
        freshSession).status = STAT_XMLFAIL) ∧
    (process_report noFault sampleTemplate docMissingRunField "r.xml"
      freshSession).session.db = freshSession.db ∧
    (process_report noFault sampleTemplate docMissingRunField "r.xml"
      freshSession).session.db.systems = freshSession.db.systems ∧
    (process_report noFault sampleTemplate docMissingRunField "r.xml"
      freshSession).session.db.runs = freshSession.db.runs ∧
    (process_report noFault sampleTemplate docMissingRunField "r.xml"
      freshSession).session.db.cyclictests = freshSession.db.cyclictests ∧
    ((process_report noFault sampleTemplate docMissingRunField "r.xml"
        freshSession).status = STAT_RTEVRUNS →
      (process_report noFault sampleTemplate docMissingRunField "r.xml"
        freshSession).trace.count Event.evRollback = 1) :=
  claim_C6_missing_run_field noFault sampleTemplate docMissingRunField
    "r.xml" freshSession (.missingRequired "s") (by decide) rfl rfl

/-- C1: process_report is all-or-nothing: on any non-success outcome the
visible database is unchanged, and on success exactly one new-or-reused
system row, exactly one new run row and exactly one cyclictest row per
extracted input row are visible. -/
theorem claim_C1_atomicity (f : Fault) (t : Template) (d : Document)
    (fn : String) (s : Session) :
    ((process_report f t d fn s).status ≠ STAT_SUCCESS →
      (process_report f t d fn s).session.db = s.db) ∧
    ((process_report f t d fn s).status = STAT_SUCCESS →
      ∃ rows, extractCyclic d t = .ok rows ∧
        (process_report f t d fn s).session.db.runs.length =
          s.db.runs.length + 1 ∧
        (process_report f t d fn s).session.db.cyclictests.length =
          s.db.cyclictests.length + rows.length ∧
        ((process_report f t d fn s).session.db.systems.length =
            s.db.systems.length + 1 ∨
         ((process_report f t d fn s).session.db.systems = s.db.systems ∧
          ∃ row ∈ s.db.systems,
            (process_report f t d fn s).syskey = some row.syskey))) := by
  rcases process_report_cases f t d fn s with
    ⟨e, _, hres⟩ | ⟨_, _, hres⟩ | ⟨_, _, _, hres⟩ | ⟨k, w1, _, _, _, hres⟩ |
    ⟨k, w1, rid, w2, _, _, _, _, hres⟩ |
    ⟨k, w1, rid, w2, _, _, _, _, _, hres⟩ |
    ⟨k, w1, rid, w2, _, hs, hr, hc, _, hres⟩
  case' inl => refine ⟨fun _ => by rw [hres], fun h => ?_⟩
  case' inr.inl => refine ⟨fun _ => by rw [hres], fun h => ?_⟩
  case' inr.inr.inl => refine ⟨fun _ => by rw [hres], fun h => ?_⟩
  case' inr.inr.inr.inl => refine ⟨fun _ => by rw [hres], fun h => ?_⟩
  case' inr.inr.inr.inr.inl => refine ⟨fun _ => by rw [hres], fun h => ?_⟩
  case' inr.inr.inr.inr.inr.inl => refine ⟨fun _ => by rw [hres], fun h => ?_⟩
  case inl =>
    rw [hres] at h
    exact absurd h (by simp [STAT_XMLFAIL, STAT_SUCCESS])
  case inr.inl =>
    rw [hres] at h
    exact absurd h (by simp [STAT_GENDB, STAT_SUCCESS])
  case inr.inr.inl =>
    rw [hres] at h
    exact absurd h (by simp [STAT_SYSREG, STAT_SUCCESS])
  case inr.inr.inr.inl =>
    rw [hres] at h
    exact absurd h (by simp [STAT_RTEVRUNS, STAT_SUCCESS])
  case inr.inr.inr.inr.inl =>
    rw [hres] at h
    exact absurd h (by simp [STAT_CYCLIC, STAT_SUCCESS])
  case inr.inr.inr.inr.inr.inl =>
    rw [hres] at h
    exact absurd h (by simp [STAT_GENDB, STAT_SUCCESS])
  case inr.inr.inr.inr.inr.inr =>
    obtain ⟨hw1runs, hw1cyc, _, hsys⟩ :=
      db_register_system_eq_some f t d s.db k w1 hs
    obtain ⟨hw2sys, hw2cyc, rfs, _, hw2runs⟩ :=
      db_register_rtevalrun_eq_some f t d k fn w1 rid w2 hr
    obtain ⟨rows, hrows, hcyceq⟩ := db_register_cyclictest_success f t d rid w2 hc
    have hpres := db_register_cyclictest_preserve f t d rid w2
    refine ⟨fun hne => absurd (by rw [hres]) hne, fun _ => ⟨rows, hrows, ?_, ?_, ?_⟩⟩
    · rw [hres]
      show (db_register_cyclictest f t d rid w2).2.runs.length =
        s.db.runs.length + 1
      rw [hpres.2, hw2runs, hw1runs]
      simp
    · rw [hres]
      show (db_register_cyclictest f t d rid w2).2.cyclictests.length =
        s.db.cyclictests.length + rows.length
      rw [hcyceq, hw2cyc, hw1cyc]
      simp
    · rcases hsys with ⟨heq, row, hmem, hkey⟩ | ⟨sfs, _, happend⟩
      · refine Or.inr ⟨?_, row, hmem, ?_⟩
        · rw [hres]
          show (db_register_cyclictest f t d rid w2).2.systems = s.db.systems
          rw [hpres.1, hw2sys, heq]
        · rw [hres]
          show some k = some row.syskey
          rw [hkey]
      · refine Or.inl ?_
        rw [hres]
        show (db_register_cyclictest f t d rid w2).2.systems.length =
          s.db.systems.length + 1
        rw [hpres.1, hw2sys, happend]
        simp

/-- Witness for C1 at a concrete successful attempt on a fresh database:
one system row, one run row and three cyclictest rows become visible. -/
theorem claim_C1_witness :
    ∃ rows, extractCyclic sampleDoc sampleTemplate = .ok rows ∧
      (process_report noFault sampleTemplate sampleDoc "r.xml"
        freshSession).session.db.runs.length =
        freshSession.db.runs.length + 1 ∧
      (process_report noFault sampleTemplate sampleDoc "r.xml"
        freshSession).session.db.cyclictests.length =
        freshSession.db.cyclictests.length + rows.length ∧
      ((process_report noFault sampleTemplate sampleDoc "r.xml"
          freshSession).session.db.systems.length =
          freshSession.db.systems.length + 1 ∨
       ((process_report noFault sampleTemplate sampleDoc "r.xml"
          freshSession).session.db.systems = freshSession.db.systems ∧
        ∃ row ∈ freshSession.db.systems,
          (process_report noFault sampleTemplate sampleDoc "r.xml"
            freshSession).syskey = some row.syskey)) :=
  (claim_C1_atomicity noFault sampleTemplate sampleDoc "r.xml"
    freshSession).2 (by decide)

/-- C3: the registration steps happen in the fixed order system, run,
cyclictest: the run step runs only when the system step succeeded, the
cyclictest step only when the run step succeeded, and a failing step leads
to a terminal failure status whose trace ends in the rollback, with no
later step executed and no commit. -/
theorem claim_C3_step_order (f : Fault) (t : Template) (d : Document)
    (fn : String) (s : Session) :
    (Event.evRegisterRun ∈ (process_report f t d fn s).trace →
      Event.evRegisterSystem ∈ (process_report f t d fn s).trace ∧
      ∃ k w1, db_register_system f t d s.db = some (k, w1)) ∧
    (Event.evRegisterCyclic ∈ (process_report f t d fn s).trace →
      Event.evRegisterRun ∈ (process_report f t d fn s).trace ∧
      ∃ k w1 rid w2, db_register_system f t d s.db = some (k, w1) ∧
        db_register_rtevalrun f t d k fn w1 = some (rid, w2)) ∧
    ((process_report f t d fn s).status = STAT_SYSREG →
      Event.evRegisterRun ∉ (process_report f t d fn s).trace ∧
      Event.evRegisterCyclic ∉ (process_report f t d fn s).trace ∧
      Event.evCommit ∉ (process_report f t d fn s).trace ∧
      (process_report f t d fn s).trace.getLast? = some Event.evRollback) ∧
    ((process_report f t d fn s).status = STAT_RTEVRUNS →
      Event.evRegisterCyclic ∉ (process_report f t d fn s).trace ∧
      Event.evCommit ∉ (process_report f t d fn s).trace ∧
      (process_report f t d fn s).trace.getLast? = some Event.evRollback) ∧
    ((process_report f t d fn s).status = STAT_CYCLIC →
      Event.evCommit ∉ (process_report f t d fn s).trace ∧
      (process_report f t d fn s).trace.getLast? = some Event.evRollback) := by
  rcases process_report_cases f t d fn s with
    ⟨e, _, hres⟩ | ⟨_, _, hres⟩ | ⟨_, _, _, hres⟩ | ⟨k, w1, _, hs, _, hres⟩ |
    ⟨k, w1, rid, w2, _, hs, hr, _, hres⟩ |
    ⟨k, w1, rid, w2, _, hs, hr, _, _, hres⟩ |
    ⟨k, w1, rid, w2, _, hs, hr, _, _, hres⟩
  case inl =>
    rw [hres]; dsimp only
    exact ⟨fun hm => absurd hm (by decide), fun hm => absurd hm (by decide),
      fun hst => absurd hst (by decide), fun hst => absurd hst (by decide),
      fun hst => absurd hst (by decide)⟩
  case inr.inl =>
    rw [hres]; dsimp only
    exact ⟨fun hm => absurd hm (by decide), fun hm => absurd hm (by decide),
      fun hst => absurd hst (by decide), fun hst => absurd hst (by decide),
      fun hst => absurd hst (by decide)⟩
  case inr.inr.inl =>
    rw [hres]; dsimp only
    exact ⟨fun hm => absurd hm (by decide), fun hm => absurd hm (by decide),
      fun _ => ⟨by decide, by decide, by decide, by decide⟩,
      fun hst => absurd hst (by decide), fun hst => absurd hst (by decide)⟩
  case inr.inr.inr.inl =>
    rw [hres]; dsimp only
    exact ⟨fun _ => ⟨by decide, k, w1, hs⟩, fun hm => absurd hm (by decide),
      fun hst => absurd hst (by decide),
      fun _ => ⟨by decide, by decide, by decide⟩,
      fun hst => absurd hst (by decide)⟩
  case inr.inr.inr.inr.inl =>
    rw [hres]; dsimp only
    exact ⟨fun _ => ⟨by decide, k, w1, hs⟩,
      fun _ => ⟨by decide, k, w1, rid, w2, hs, hr⟩,
      fun hst => absurd hst (by decide), fun hst => absurd hst (by decide),
      fun _ => ⟨by decide, by decide⟩⟩
  case inr.inr.inr.inr.inr.inl =>
    rw [hres]; dsimp only
    exact ⟨fun _ => ⟨by decide, k, w1, hs⟩,
      fun _ => ⟨by decide, k, w1, rid, w2, hs, hr⟩,
      fun hst => absurd hst (by decide), fun hst => absurd hst (by decide),
      fun hst => absurd hst (by decide)⟩
  case inr.inr.inr.inr.inr.inr =>
    rw [hres]; dsimp only
    exact ⟨fun _ => ⟨by decide, k, w1, hs⟩,
      fun _ => ⟨by decide, k, w1, rid, w2, hs, hr⟩,
      fun hst => absurd hst (by decide), fun hst => absurd hst (by decide),
      fun hst => absurd hst (by decide)⟩

/-- Witness for C3 at a concrete attempt: the run step ran, so the system
step had succeeded before it. -/
theorem claim_C3_witness :
    Event.evRegisterSystem ∈ (process_report noFault sampleTemplate
      sampleDoc "r.xml" freshSession).trace ∧
    ∃ k w1, db_register_system noFault sampleTemplate sampleDoc
      freshSession.db = some (k, w1) :=
  (claim_C3_step_order noFault sampleTemplate sampleDoc "r.xml"
    freshSession).1 (by decide)

/-- C8 counterexample: a failed attempt with zero rollbacks.  At a document
whose system extraction fails, process_report ends in the failure status
STAT_XMLFAIL, yet its trace contains no rollback at all — so it is not the
case that every failed attempt performs exactly one rollback. -/
theorem claim_C8_counterexample :
    (process_report noFault sampleTemplate docMissingSystemField "r.xml"
      freshSession).status = STAT_XMLFAIL ∧
    STAT_XMLFAIL ≠ STAT_SUCCESS ∧ STAT_XMLFAIL ≠ STAT_NEW ∧
    (process_report noFault sampleTemplate docMissingSystemField "r.xml"
      freshSession).trace.count Event.evRollback = 0 := by
  decide

/-- C8 (amended): at most one rollback and at most one begin per attempt
(so the orchestrator never retries on its own); every attempt that fails
after the transaction was opened performs exactly one rollback; a commit
happens only on full success and never together with a rollback (no partial
commit). -/
theorem claim_C8_rollback_discipline (f : Fault) (t : Template)
    (d : Document) (fn : String) (s : Session) :
    (process_report f t d fn s).trace.count Event.evRollback ≤ 1 ∧
    (process_report f t d fn s).trace.count Event.evBegin ≤ 1 ∧
    ((process_report f t d fn s).status ≠ STAT_SUCCESS →
      Event.evBegin ∈ (process_report f t d fn s).trace →
      (process_report f t d fn s).trace.count Event.evRollback = 1) ∧
    (Event.evCommit ∈ (process_report f t d fn s).trace →
      (process_report f t d fn s).status = STAT_SUCCESS ∧
      Event.evRollback ∉ (process_report f t d fn s).trace) ∧
    ((process_report f t d fn s).status = STAT_SUCCESS →
      (process_report f t d fn s).trace.count Event.evCommit = 1 ∧
      Event.evRollback ∉ (process_report f t d fn s).trace) := by
  rcases process_report_cases f t d fn s with
    ⟨e, _, hres⟩ | ⟨_, _, hres⟩ | ⟨_, _, _, hres⟩ | ⟨k, w1, _, _, _, hres⟩ |
    ⟨k, w1, rid, w2, _, _, _, _, hres⟩ |
    ⟨k, w1, rid, w2, _, _, _, _, _, hres⟩ |
    ⟨k, w1, rid, w2, _, _, _, _, _, hres⟩
  case inl =>
    rw [hres]; dsimp only
    exact ⟨by decide, by decide, fun _ hm => absurd hm (by decide),
      fun hm => absurd hm (by decide), fun hst => absurd hst (by decide)⟩
  case inr.inl =>
    rw [hres]; dsimp only
    exact ⟨by decide, by decide, fun _ hm => absurd hm (by decide),
      fun hm => absurd hm (by decide), fun hst => absurd hst (by decide)⟩
  case inr.inr.inl =>
    rw [hres]; dsimp only
    exact ⟨by decide, by decide, fun _ _ => by decide,
      fun hm => absurd hm (by decide), fun hst => absurd hst (by decide)⟩
  case inr.inr.inr.inl =>
    rw [hres]; dsimp only
    exact ⟨by decide, by decide, fun _ _ => by decide,
      fun hm => absurd hm (by decide), fun hst => absurd hst (by decide)⟩
  case inr.inr.inr.inr.inl =>
    rw [hres]; dsimp only
    exact ⟨by decide, by decide, fun _ _ => by decide,
      fun hm => absurd hm (by decide), fun hst => absurd hst (by decide)⟩
  case inr.inr.inr.inr.inr.inl =>
    rw [hres]; dsimp only
    exact ⟨by decide, by decide, fun _ _ => by decide,
      fun hm => absurd hm (by decide), fun hst => absurd hst (by decide)⟩
  case inr.inr.inr.inr.inr.inr =>
    rw [hres]; dsimp only
    exact ⟨by decide, by decide, fun hne _ => absurd rfl hne,
      fun _ => ⟨rfl, by decide⟩, fun _ => ⟨by decide, by decide⟩⟩

/-- Witness for C8 at a concrete attempt failing inside the open
transaction (the run insert fails): exactly one rollback was issued. -/
theorem claim_C8_witness :
    (process_report faultRunInsert sampleTemplate sampleDoc "r.xml"
      freshSession).trace.count Event.evRollback = 1 :=
  (claim_C8_rollback_discipline faultRunInsert sampleTemplate sampleDoc
    "r.xml" freshSession).2.2.1 (by decide) (by decide)

end RTEval
